import Mathlib

/-!
Shallow embedding of the valuation core of `src/main.py` (AssetOS Ultra):
the Graham-number valuation evaluator and the per-ticker data-shaping
pipeline (`fetch_stock_deep_dive`), plus the two scan loops that consume
them (the Dashboard watchlist loop and the Quick Scanner loop).

Python floats are modelled as real numbers; a raw yfinance `info`
dictionary is modelled as a structure of `Option` fields (absent key =
`none`); a fetch that raises is modelled as `none` at the call site.
Python strings are Lean strings (slicing `[:400]` counts characters,
as does `String.take`).
-/

set_option maxRecDepth 8000

/-- Python `round` on a real number: round half to even (banker's rounding). -/
noncomputable def pyRound (y : ℝ) : ℤ :=
  if Int.fract y = 1 / 2 then (if Even ⌊y⌋ then ⌊y⌋ else ⌊y⌋ + 1) else round y

/-- Python `round(x, 2)`. -/
noncomputable def roundTo2 (x : ℝ) : ℝ :=
  (pyRound (x * 100) : ℝ) / 100

/-- The default string used for a missing `longBusinessSummary`
(`src/main.py` line 114). -/
def noSummary : String := "No summary available."

/-- A raw yfinance `info` dictionary, restricted to the keys the source
reads. Any key may be absent. -/
structure Info where
  shortName : Option String := none
  currentPrice : Option ℝ := none
  previousClose : Option ℝ := none
  marketCap : Option ℝ := none
  trailingPE : Option ℝ := none
  forwardPE : Option ℝ := none
  pegRatio : Option ℝ := none
  priceToBook : Option ℝ := none
  returnOnEquity : Option ℝ := none
  debtToEquity : Option ℝ := none
  trailingEps : Option ℝ := none
  bookValue : Option ℝ := none
  sector : Option String := none
  longBusinessSummary : Option String := none

/-- The `data` dictionary built by `fetch_stock_deep_dive`
(`src/main.py` lines 99-130), one field per dictionary key. -/
@[ext] structure StockData where
  ticker : String
  name : String
  price : ℝ
  prevClose : ℝ
  marketCap : ℝ
  peRatio : ℝ
  forwardPE : ℝ
  pegRatio : ℝ
  priceToBook : ℝ
  roe : ℝ
  debtToEquity : ℝ
  eps : ℝ
  bookValue : ℝ
  sector : String
  about : String
  intrinsicValue : ℝ
  signal : String

/-- The Graham valuation block of `fetch_stock_deep_dive`
(`src/main.py` lines 117-129): starts from `(0, "HOLD")`; when
`EPS > 0 and Book Value > 0`, sets the intrinsic value to
`round(sqrt(22.5 * EPS * BookValue), 2)` and the signal to `"BUY"` if
`price < graham`, `"SELL"` if `price > graham * 1.5`, else leaves
`"HOLD"`. -/
noncomputable def evaluate (eps bookValue price : ℝ) : ℝ × String :=
  if eps > 0 ∧ bookValue > 0 then
    let graham := Real.sqrt (22.5 * eps * bookValue)
    (roundTo2 graham,
      if price < graham then "BUY"
      else if price > graham * 1.5 then "SELL"
      else "HOLD")
  else (0, "HOLD")

/-- The pure data-shaping part of `fetch_stock_deep_dive`
(`src/main.py` lines 99-130): every field defaulted via `info.get`,
the business summary sliced to 400 characters with `"..."` appended,
and the Graham valuation attached. -/
noncomputable def stockRecord (tk : String) (info : Info) : StockData :=
  { ticker := tk
    name := info.shortName.getD tk
    price := info.currentPrice.getD 0
    prevClose := info.previousClose.getD 0
    marketCap := info.marketCap.getD 0
    peRatio := info.trailingPE.getD 0
    forwardPE := info.forwardPE.getD 0
    pegRatio := info.pegRatio.getD 0
    priceToBook := info.priceToBook.getD 0
    roe := info.returnOnEquity.getD 0
    debtToEquity := info.debtToEquity.getD 0
    eps := info.trailingEps.getD 0
    bookValue := info.bookValue.getD 0
    sector := info.sector.getD "Unknown"
    about := (info.longBusinessSummary.getD noSummary).take 400 ++ "..."
    intrinsicValue := (evaluate (info.trailingEps.getD 0) (info.bookValue.getD 0)
      (info.currentPrice.getD 0)).1
    signal := (evaluate (info.trailingEps.getD 0) (info.bookValue.getD 0)
      (info.currentPrice.getD 0)).2 }

/-- `fetch_stock_deep_dive` (`src/main.py` lines 91-133): the external
fetch outcome is the `Option Info` argument (`none` = the `try` block
raised), and the function returns `None` in that case. -/
noncomputable def fetch_stock_deep_dive (tk : String) (fetched : Option Info) :
    Option StockData :=
  fetched.map (stockRecord tk)

/-- One row of the Dashboard watchlist table (`src/main.py` lines 210-216). -/
structure WatchRow where
  ticker : String
  price : ℝ
  value : ℝ
  signal : String
  sector : String

/-- `sig_icon` (`src/main.py` line 208): `"🟢" if "BUY" in signal else
("🔴" if "SELL" in signal else "🟡")`, with Python substring membership. -/
def sigIcon (s : String) : String :=
  if "BUY".toList <:+: s.toList then "🟢"
  else if "SELL".toList <:+: s.toList then "🔴"
  else "🟡"

/-- The row appended for one watchlist ticker (`src/main.py` lines 210-216). -/
def watchRow (tk : String) (d : StockData) : WatchRow :=
  { ticker := tk
    price := d.price
    value := d.intrinsicValue
    signal := sigIcon d.signal ++ " " ++ d.signal
    sector := d.sector }

/-- The Dashboard watchlist loop (`src/main.py` lines 203-216): for each
ticker, call `fetch_stock_deep_dive`; `if info:` append a row, else skip. -/
noncomputable def dashboardWatchlist : List (String × Option Info) → List WatchRow
  | [] => []
  | (t, fetched) :: rest =>
    match fetch_stock_deep_dive t fetched with
    | some d => watchRow t d :: dashboardWatchlist rest
    | none => dashboardWatchlist rest

/-- One row of the Quick Scanner results table (`src/main.py` lines 249-255). -/
structure ScanRow where
  ticker : String
  price : ℝ
  intrinsicValue : ℝ
  status : String
  sector : String

/-- The per-ticker body of the Quick Scanner loop (`src/main.py` lines
239-255): a row is appended only `if eps > 0 and bv > 0`; otherwise the
ticker contributes nothing. -/
noncomputable def scanRow (tk : String) (info : Info) : Option ScanRow :=
  let price := info.currentPrice.getD 0
  let eps := info.trailingEps.getD 0
  let bv := info.bookValue.getD 0
  if eps > 0 ∧ bv > 0 then
    let graham := Real.sqrt (22.5 * eps * bv)
    some { ticker := tk
           price := price
           intrinsicValue := roundTo2 graham
           status := if price < graham then "🟢 BUY"
             else if price > graham * 1.5 then "🔴 EXPENSIVE"
             else "Fair"
           sector := info.sector.getD "N/A" }
  else none

/-- The Quick Scanner loop (`src/main.py` lines 234-259): sequential; an
exception (`none` fetch) hits `except: pass`; a successful fetch appends
`scanRow`'s result when the fundamentals gate passes. -/
noncomputable def quickScanner : List (String × Option Info) → List ScanRow
  | [] => []
  | (t, fetched) :: rest =>
    match fetched with
    | some info =>
      match scanRow t info with
      | some r => r :: quickScanner rest
      | none => quickScanner rest
    | none => quickScanner rest

/-- Feeding an already-normalized record back in as a raw `info`
dictionary: every output field becomes the present input field it was
read from. Used to state idempotence of the normalization step. -/
def dataToInfo (d : StockData) : Info :=
  { shortName := some d.name
    currentPrice := some d.price
    previousClose := some d.prevClose
    marketCap := some d.marketCap
    trailingPE := some d.peRatio
    forwardPE := some d.forwardPE
    pegRatio := some d.pegRatio
    priceToBook := some d.priceToBook
    returnOnEquity := some d.roe
    debtToEquity := some d.debtToEquity
    trailingEps := some d.eps
    bookValue := some d.bookValue
    sector := some d.sector
    longBusinessSummary := some d.about }

-- Helper lemmas shared by the claim theorems.

/-- When the fundamentals gate fails, `evaluate` leaves `(0, "HOLD")`. -/
theorem evaluate_gate (eps bookValue price : ℝ)
    (h : eps ≤ 0 ∨ bookValue ≤ 0) : evaluate eps bookValue price = (0, "HOLD") := by
  unfold evaluate
  rw [if_neg]
  rintro ⟨h1, h2⟩
  rcases h with h | h <;> linarith

/-- When the fundamentals gate passes, `evaluate` is the rounded Graham
number paired with the three-way classification. -/
theorem evaluate_pos (eps bookValue price : ℝ)
    (he : 0 < eps) (hb : 0 < bookValue) :
    evaluate eps bookValue price =
      (roundTo2 (Real.sqrt (22.5 * eps * bookValue)),
        if price < Real.sqrt (22.5 * eps * bookValue) then "BUY"
        else if price > Real.sqrt (22.5 * eps * bookValue) * 1.5 then "SELL"
        else "HOLD") := by
  unfold evaluate
  rw [if_pos ⟨he, hb⟩]

/-- Claim C1: for every input with `eps <= 0` or `bookValue <= 0`, the
valuation inside the per-ticker normalization returns intrinsic value `0`
and the signal `"NEUTRAL"`, regardless of price. Refuted at
`evaluate 0 50 100`: the source has no `NEUTRAL` signal at all; the gate
leaves the initial `"HOLD"`. -/
theorem evaluate_gate_not_neutral : (evaluate 0 50 100).2 ≠ "NEUTRAL" := by
  rw [evaluate_gate 0 50 100 (Or.inl le_rfl)]
  decide

/-- Claim C1 (amended): for every input with `eps <= 0` or
`bookValue <= 0`, the valuation returns intrinsic value exactly `0` and
the signal `"HOLD"` (the single default signal the source uses),
regardless of price. -/
theorem evaluate_gate_returns_zero_hold (eps bookValue price : ℝ)
    (h : eps ≤ 0 ∨ bookValue ≤ 0) :
    evaluate eps bookValue price = (0, "HOLD") :=
  evaluate_gate eps bookValue price h

/-- Witness for the amended C1 at `eps = 0`, `bookValue = 50`, `price = 100`. -/
theorem evaluate_gate_returns_zero_hold_witness :
    ((0 : ℝ) ≤ 0 ∨ (50 : ℝ) ≤ 0) ∧ evaluate 0 50 100 = (0, "HOLD") :=
  ⟨Or.inl le_rfl, evaluate_gate_returns_zero_hold 0 50 100 (Or.inl le_rfl)⟩

/-- Claim C2: for every input with `eps > 0` and `bookValue > 0`, the
intrinsic value attached to the result record equals
`sqrt(22.5 * eps * bookValue)` rounded to 2 decimal places. -/
theorem stockRecord_intrinsic_graham (tk : String) (info : Info)
    (he : 0 < info.trailingEps.getD 0) (hb : 0 < info.bookValue.getD 0) :
    (stockRecord tk info).intrinsicValue =
      roundTo2 (Real.sqrt (22.5 * info.trailingEps.getD 0 * info.bookValue.getD 0)) := by
  unfold stockRecord
  dsimp only
  rw [evaluate_pos _ _ _ he hb]

/-- Witness for C2 at `eps = 10`, `bookValue = 20` (price absent). -/
theorem stockRecord_intrinsic_graham_witness :
    (0 : ℝ) < 10 ∧ (0 : ℝ) < 20 ∧
    (stockRecord "X" { trailingEps := some 10, bookValue := some 20 }).intrinsicValue =
      roundTo2 (Real.sqrt (22.5 * 10 * 20)) :=
  ⟨by norm_num, by norm_num,
    stockRecord_intrinsic_graham "X" { trailingEps := some 10, bookValue := some 20 }
      (by show (0 : ℝ) < 10; norm_num) (by show (0 : ℝ) < 20; norm_num)⟩

/-- Claim C3: with `eps > 0` and `bookValue > 0` and `graham` the
unrounded `sqrt(22.5*eps*bookValue)`, the signal is `"BUY"` iff
`price < graham`, `"SELL"` iff `price > 1.5*graham`, `"HOLD"` otherwise;
in particular `price = graham` and `price = 1.5*graham` both give `"HOLD"`. -/
theorem evaluate_signal_classification (eps bookValue price : ℝ)
    (he : 0 < eps) (hb : 0 < bookValue) :
    ((evaluate eps bookValue price).2 = "BUY" ↔
      price < Real.sqrt (22.5 * eps * bookValue)) ∧
    ((evaluate eps bookValue price).2 = "SELL" ↔
      1.5 * Real.sqrt (22.5 * eps * bookValue) < price) ∧
    ((evaluate eps bookValue price).2 = "HOLD" ↔
      (Real.sqrt (22.5 * eps * bookValue) ≤ price ∧
        price ≤ 1.5 * Real.sqrt (22.5 * eps * bookValue))) ∧
    (evaluate eps bookValue (Real.sqrt (22.5 * eps * bookValue))).2 = "HOLD" ∧
    (evaluate eps bookValue (1.5 * Real.sqrt (22.5 * eps * bookValue))).2 = "HOLD" := by
  have hg : 0 ≤ Real.sqrt (22.5 * eps * bookValue) := Real.sqrt_nonneg _
  have e1 : ∀ p : ℝ, (evaluate eps bookValue p).2 =
      if p < Real.sqrt (22.5 * eps * bookValue) then "BUY"
      else if p > Real.sqrt (22.5 * eps * bookValue) * 1.5 then "SELL"
      else "HOLD" := by
    intro p
    rw [evaluate_pos _ _ _ he hb]
  set g := Real.sqrt (22.5 * eps * bookValue) with hgdef
  refine ⟨?_, ?_, ?_, ?_, ?_⟩
  · rw [e1 price]
    by_cases h1 : price < g
    · rw [if_pos h1]
      exact iff_of_true rfl h1
    · rw [if_neg h1]
      by_cases h2 : price > g * 1.5
      · rw [if_pos h2]
        exact iff_of_false (by decide) h1
      · rw [if_neg h2]
        exact iff_of_false (by decide) h1
  · rw [e1 price]
    by_cases h1 : price < g
    · rw [if_pos h1]
      exact iff_of_false (by decide) (not_lt.mpr (by linarith))
    · rw [if_neg h1]
      by_cases h2 : price > g * 1.5
      · rw [if_pos h2]
        exact iff_of_true rfl (by linarith)
      · rw [if_neg h2]
        exact iff_of_false (by decide) (not_lt.mpr (by linarith [not_lt.mp h2]))
  · rw [e1 price]
    by_cases h1 : price < g
    · rw [if_pos h1]
      exact iff_of_false (by decide) (fun hc => absurd h1 (not_lt.mpr hc.1))
    · rw [if_neg h1]
      by_cases h2 : price > g * 1.5
      · rw [if_pos h2]
        exact iff_of_false (by decide) (fun hc => absurd h2 (not_lt.mpr (by linarith [hc.2])))
      · rw [if_neg h2]
        exact iff_of_true rfl ⟨not_lt.mp h1, by linarith [not_lt.mp h2]⟩
  · rw [e1 g, if_neg (lt_irrefl g), if_neg (not_lt.mpr (by linarith))]
  · rw [e1 (1.5 * g), if_neg (not_lt.mpr (by linarith)),
      if_neg (not_lt.mpr (le_of_eq (by ring)))]

/-- Witness for C3 at `eps = 10`, `bookValue = 20`, `price = 50`. -/
theorem evaluate_signal_classification_witness :
    (0 : ℝ) < 10 ∧ (0 : ℝ) < 20 ∧
    (((evaluate 10 20 50).2 = "BUY" ↔ (50 : ℝ) < Real.sqrt (22.5 * 10 * 20)) ∧
    ((evaluate 10 20 50).2 = "SELL" ↔ 1.5 * Real.sqrt (22.5 * 10 * 20) < 50) ∧
    ((evaluate 10 20 50).2 = "HOLD" ↔
      (Real.sqrt (22.5 * 10 * 20) ≤ 50 ∧ (50 : ℝ) ≤ 1.5 * Real.sqrt (22.5 * 10 * 20))) ∧
    (evaluate 10 20 (Real.sqrt (22.5 * 10 * 20))).2 = "HOLD" ∧
    (evaluate 10 20 (1.5 * Real.sqrt (22.5 * 10 * 20))).2 = "HOLD") :=
  ⟨by norm_num, by norm_num,
    evaluate_signal_classification 10 20 50 (by norm_num) (by norm_num)⟩

/-- Claim C4: at `eps = 10`, `bookValue = 20`, `price = 67.08` (price
exactly equal to the 2-decimal-rounded Graham value), the claim says the
signal is `"HOLD"`. Refuted: the source compares against the unrounded
`sqrt(4500) ≈ 67.0820`, and `67.08 < sqrt(4500)`, so the signal is
`"BUY"`. -/
theorem evaluate_rounded_boundary_not_hold : (evaluate 10 20 67.08).2 ≠ "HOLD" := by
  have hlt : (67.08 : ℝ) < Real.sqrt (22.5 * 10 * 20) :=
    (Real.lt_sqrt (by norm_num)).mpr (by norm_num)
  rw [evaluate_pos 10 20 67.08 (by norm_num) (by norm_num)]
  dsimp only
  rw [if_pos hlt]
  decide

/-- Claim C4 (amended): at `eps = 10`, `bookValue = 20`, `price = 67.08`,
the signal is `"BUY"`: the comparison uses the unrounded Graham value
`sqrt(4500)`, which is strictly above `67.08`. -/
theorem evaluate_rounded_boundary_buy : (evaluate 10 20 67.08).2 = "BUY" := by
  have hlt : (67.08 : ℝ) < Real.sqrt (22.5 * 10 * 20) :=
    (Real.lt_sqrt (by norm_num)).mpr (by norm_num)
  rw [evaluate_pos 10 20 67.08 (by norm_num) (by norm_num)]
  dsimp only
  rw [if_pos hlt]

/-- Taking 400 characters of a string that is at most 400 characters
long returns it unchanged. -/
theorem take400_of_short (s : String) (h : s.1.length ≤ 400) : s.take 400 = s := by
  rw [String.take_eq, List.take_of_length_le h]

/-- The `About` field produced for an absent business summary: the
placeholder with the marker appended. -/
theorem stockRecord_empty_about :
    (stockRecord "X" {}).about = "No summary available...." := by
  show noSummary.take 400 ++ "..." = "No summary available...."
  rw [take400_of_short noSummary (by decide)]
  decide

/-- Claim C5: normalizing ticker `"X"` with an empty raw record yields
`Name == "X"`, all numeric fields `0`, `Signal == "NEUTRAL"` and
`IntrinsicValue == 0`. Refuted: the signal is the source's default
`"HOLD"`; no `NEUTRAL` signal exists. -/
theorem stockRecord_empty_not_neutral :
    (stockRecord "X" {}).signal ≠ "NEUTRAL" := by
  have h2 : (stockRecord "X" {}).signal = "HOLD" := by
    show (evaluate 0 0 0).2 = "HOLD"
    rw [evaluate_gate 0 0 0 (Or.inl le_rfl)]
  rw [h2]
  decide

/-- Claim C5 (amended): normalizing ticker `"X"` with an empty raw
record yields `name = "X"`, every numeric field `0`,
`intrinsicValue = 0` and `signal = "HOLD"`. -/
theorem stockRecord_empty_defaults :
    (stockRecord "X" {}).name = "X" ∧
    (stockRecord "X" {}).price = 0 ∧
    (stockRecord "X" {}).prevClose = 0 ∧
    (stockRecord "X" {}).marketCap = 0 ∧
    (stockRecord "X" {}).peRatio = 0 ∧
    (stockRecord "X" {}).forwardPE = 0 ∧
    (stockRecord "X" {}).pegRatio = 0 ∧
    (stockRecord "X" {}).priceToBook = 0 ∧
    (stockRecord "X" {}).roe = 0 ∧
    (stockRecord "X" {}).debtToEquity = 0 ∧
    (stockRecord "X" {}).eps = 0 ∧
    (stockRecord "X" {}).bookValue = 0 ∧
    (stockRecord "X" {}).intrinsicValue = 0 ∧
    (stockRecord "X" {}).signal = "HOLD" := by
  have hev : evaluate 0 0 0 = (0, "HOLD") := evaluate_gate 0 0 0 (Or.inl le_rfl)
  refine ⟨rfl, rfl, rfl, rfl, rfl, rfl, rfl, rfl, rfl, rfl, rfl, rfl, ?_, ?_⟩
  · show (evaluate 0 0 0).1 = 0
    rw [hev]
  · show (evaluate 0 0 0).2 = "HOLD"
    rw [hev]

/-- Claim C6: non-positive `eps` or `bookValue` never drops a scanned
instrument; its row is still produced with intrinsic value `0`. Refuted:
the Quick Scanner appends a row only `if eps > 0 and bv > 0`, so the
instrument is silently omitted from the results. -/
theorem quickScanner_drops_nonpositive :
    quickScanner [("A", some {})] = [] := by
  have hrow : scanRow "A" {} = none := by
    unfold scanRow
    dsimp only
    rw [if_neg]
    rintro ⟨h1, -⟩
    exact absurd h1 (by norm_num)
  simp only [quickScanner, hrow]

/-- Claim C6 (amended): non-positive `eps` or `bookValue` is never an
error: in the deep-dive/watchlist path the record is still produced,
with intrinsic value `0` and signal `"HOLD"`, but the Quick Scanner path
omits the instrument's row from the results entirely. -/
theorem nonpositive_fundamentals_handling (tk : String) (info : Info)
    (rest : List (String × Option Info))
    (h : info.trailingEps.getD 0 ≤ 0 ∨ info.bookValue.getD 0 ≤ 0) :
    fetch_stock_deep_dive tk (some info) = some (stockRecord tk info) ∧
    (stockRecord tk info).intrinsicValue = 0 ∧
    (stockRecord tk info).signal = "HOLD" ∧
    quickScanner ((tk, some info) :: rest) = quickScanner rest := by
  have hev := evaluate_gate (info.trailingEps.getD 0) (info.bookValue.getD 0)
    (info.currentPrice.getD 0) h
  refine ⟨rfl, ?_, ?_, ?_⟩
  · show (evaluate _ _ _).1 = 0
    rw [hev]
  · show (evaluate _ _ _).2 = "HOLD"
    rw [hev]
  · have hrow : scanRow tk info = none := by
      unfold scanRow
      dsimp only
      rw [if_neg]
      rintro ⟨h1, h2⟩
      rcases h with h | h <;> linarith
    simp only [quickScanner, hrow]

/-- Witness for the amended C6 at ticker `"A"`, empty raw record, empty
remaining scan list. -/
theorem nonpositive_fundamentals_handling_witness :
    ((({} : Info).trailingEps.getD 0 ≤ 0) ∨ (({} : Info).bookValue.getD 0 ≤ 0)) ∧
    (fetch_stock_deep_dive "A" (some {}) = some (stockRecord "A" {}) ∧
      (stockRecord "A" {}).intrinsicValue = 0 ∧
      (stockRecord "A" {}).signal = "HOLD" ∧
      quickScanner [("A", some {})] = quickScanner []) :=
  ⟨Or.inl le_rfl, nonpositive_fundamentals_handling "A" {} [] (Or.inl le_rfl)⟩

/-- The Dashboard watchlist loop is the order-preserving `filterMap` of
its per-ticker row function over the input sequence. -/
theorem dashboardWatchlist_eq_filterMap (l : List (String × Option Info)) :
    dashboardWatchlist l =
      l.filterMap (fun p => (fetch_stock_deep_dive p.1 p.2).map (watchRow p.1)) := by
  induction l with
  | nil => rfl
  | cons hd tl ih =>
    obtain ⟨t, fetched⟩ := hd
    cases fetched with
    | none => simpa [dashboardWatchlist, fetch_stock_deep_dive] using ih
    | some info => simpa [dashboardWatchlist, fetch_stock_deep_dive] using ih

/-- The Quick Scanner loop is the order-preserving `filterMap` of its
per-ticker row function over the input sequence. -/
theorem quickScanner_eq_filterMap (l : List (String × Option Info)) :
    quickScanner l = l.filterMap (fun p => p.2.bind (scanRow p.1)) := by
  induction l with
  | nil => rfl
  | cons hd tl ih =>
    obtain ⟨t, fetched⟩ := hd
    cases fetched with
    | none => simpa [quickScanner] using ih
    | some info =>
      cases hsr : scanRow t info with
      | none => simpa [quickScanner, hsr] using ih
      | some r => simpa [quickScanner, hsr] using ih

/-- Claim C7: both scan loops produce results in input order, each
failing fetch is omitted entirely (no placeholder) and the remaining
tickers are still processed; scanning `[A, B, C]` where `B` fails yields
`[resultA, resultC]` in that order. -/
theorem scan_preserves_input_order :
    (∀ l : List (String × Option Info),
      dashboardWatchlist l =
        l.filterMap (fun p => (fetch_stock_deep_dive p.1 p.2).map (watchRow p.1))) ∧
    (∀ l : List (String × Option Info),
      quickScanner l = l.filterMap (fun p => p.2.bind (scanRow p.1))) ∧
    (∀ (a b c : String) (ia ic : Info),
      dashboardWatchlist [(a, some ia), (b, none), (c, some ic)] =
        [watchRow a (stockRecord a ia), watchRow c (stockRecord c ic)]) := by
  refine ⟨dashboardWatchlist_eq_filterMap, quickScanner_eq_filterMap, ?_⟩
  intro a b c ia ic
  rw [dashboardWatchlist_eq_filterMap]
  rfl

/-- Claim C8: normalization is idempotent; re-normalizing an
already-normalized record yields an identical record. Refuted: the
business summary gets the `"..."` marker appended again; already the
empty raw record changes on the second pass. -/
theorem renormalize_changes_record :
    stockRecord "X" (dataToInfo (stockRecord "X" {})) ≠ stockRecord "X" {} := by
  intro h
  have habout2 : (stockRecord "X" (dataToInfo (stockRecord "X" {}))).about =
      "No summary available......." := by
    show ((stockRecord "X" {}).about).take 400 ++ "..." = _
    rw [stockRecord_empty_about, take400_of_short _ (by decide)]
    decide
  have hab := congrArg StockData.about h
  rw [habout2, stockRecord_empty_about] at hab
  exact absurd hab (by decide)

/-- Claim C8 (amended): re-normalizing an already-normalized record
preserves every field except the business summary, which is sliced to
400 characters and has the `"..."` marker appended a second time (so
the record changes whenever the first summary was 400 characters or
shorter). -/
theorem renormalize_fields (tk : String) (info : Info) :
    stockRecord tk (dataToInfo (stockRecord tk info)) =
      { stockRecord tk info with
          about := ((stockRecord tk info).about).take 400 ++ "..." } :=
  rfl

/-- Claim C9: an absent business summary yields the bare
`"No summary available."` placeholder. Refuted: the source appends the
`"..."` marker unconditionally, so the absent case yields
`"No summary available...."`. -/
theorem about_absent_not_bare_placeholder :
    (stockRecord "X" {}).about ≠ "No summary available." := by
  rw [stockRecord_empty_about]
  decide

/-- Claim C9 (amended): the summary field is always the first 400
characters of the summary-or-placeholder with `"..."` appended,
unconditionally: an absent summary yields `"No summary available...."`
(marker on the placeholder), and a present summary gets its first 400
characters plus the marker even when nothing was truncated. -/
theorem about_marker_unconditional (tk : String) (info : Info) (s : String) :
    (stockRecord tk { info with longBusinessSummary := none }).about =
      "No summary available...." ∧
    (stockRecord tk { info with longBusinessSummary := some s }).about =
      s.take 400 ++ "..." := by
  constructor
  · show noSummary.take 400 ++ "..." = "No summary available...."
    rw [take400_of_short noSummary (by decide)]
    decide
  · rfl

/-- Claim C10: a successfully fetched record with `eps > 0` and
`bookValue > 0` but no current price (so the price defaults to `0`)
is always classified `"BUY"`, since `0` is strictly below the positive
Graham value. -/
theorem missing_price_signals_buy (tk : String) (info : Info)
    (hp : info.currentPrice = none)
    (he : 0 < info.trailingEps.getD 0) (hb : 0 < info.bookValue.getD 0) :
    (stockRecord tk info).signal = "BUY" := by
  have hg : 0 < Real.sqrt (22.5 * info.trailingEps.getD 0 * info.bookValue.getD 0) :=
    Real.sqrt_pos.mpr (mul_pos (mul_pos (by norm_num) he) hb)
  show (evaluate _ _ (info.currentPrice.getD 0)).2 = "BUY"
  rw [hp]
  show (evaluate _ _ 0).2 = "BUY"
  rw [evaluate_pos _ _ _ he hb]
  dsimp only
  rw [if_pos hg]

/-- Witness for C10 at `eps = 10`, `bookValue = 20`, price absent. -/
theorem missing_price_signals_buy_witness :
    (({ trailingEps := some 10, bookValue := some 20 } : Info).currentPrice = none) ∧
    (0 : ℝ) < ({ trailingEps := some 10, bookValue := some 20 } : Info).trailingEps.getD 0 ∧
    (0 : ℝ) < ({ trailingEps := some 10, bookValue := some 20 } : Info).bookValue.getD 0 ∧
    (stockRecord "X" { trailingEps := some 10, bookValue := some 20 }).signal = "BUY" :=
  ⟨rfl, by show (0 : ℝ) < 10; norm_num, by show (0 : ℝ) < 20; norm_num,
    missing_price_signals_buy "X" { trailingEps := some 10, bookValue := some 20 }
      rfl (by show (0 : ℝ) < 10; norm_num) (by show (0 : ℝ) < 20; norm_num)⟩
